import Mathlib

/-!
# Verification of the cog build orchestration pipeline (`pkg/image/build.go`)

This file gives a shallow embedding of the `Build` pipeline from
`src/pkg/image/build.go` and proves properties of it.

Modelling conventions:
* The file system state relevant to the pipeline (the `.dockerignore` file, its
  backup `.dockerignore.cog.bak`, the persisted weights-manifest cache file and
  the two bundled schema files) is an explicit `FS` record.
* File-system primitives (`os.Stat`, `os.Rename`, `os.ReadFile`, `os.WriteFile`,
  `os.Remove`) are modelled as total operations on `FS`; their low-level I/O
  failure branches in the source are unreachable in the model.  The one
  semantically meaningful failure is preserved: `os.Remove` of a file that does
  not exist returns an error (used by `restoreDockerignore`).  The
  weights-manifest `Save` and the bundled-schema write are likewise total.
* External collaborators (the docker build engine, the Dockerfile generator,
  the schema introspector, the remote registry, git subprocesses) are not in
  `src/`; their outcomes are inputs to `Build`, given in the `BuildInput`
  record.  Observable interactions with them are recorded in an event trace.
* Go's `map[string]string` label set is modelled as an association list with
  unique keys; assignment `labels[k] = v` is `setLabel`, which removes any
  existing binding for `k` and appends `(k, v)`.
-/

namespace Cog

/-- A weights manifest entry: a path together with its content hash. -/
abbrev ManifestEntry := String × String

/-- Modelled from the spec: `weights.Manifest` (package `pkg/weights`, not in
`src/`) is "a content-addressed description of the weight artifacts found in
the source tree (paths + content hashes)". -/
structure Manifest where
  entries : List ManifestEntry
deriving DecidableEq, Repr

/-- Modelled from the spec: "Two manifests are `Equal` iff they describe the
same set of paths with identical hashes." -/
def Manifest.Equal (m other : Manifest) : Bool :=
  m.entries.all (fun e => other.entries.contains e) &&
    other.entries.all (fun e => m.entries.contains e)

/-- The on-disk weights-manifest cache file at `.cog/cache/weights_manifest.json`:
missing, present but unreadable/unparsable, or holding a stored manifest. -/
inductive CacheFile where
  | missing
  | corrupt
  | stored (m : Manifest)
deriving DecidableEq, Repr

/-- Modelled from the spec: `weights.LoadManifest` (not in `src/`) returns
`(nil, err)` when the cache file is missing or unreadable, and the manifest
otherwise.  `Build` discards the error (`cachedManifest, _ := ...`,
build.go:110), so both failure modes yield `none`. -/
def loadManifest : CacheFile → Option Manifest
  | .stored m => some m
  | .missing => none
  | .corrupt => none

/-- The file-system state touched by the pipeline. -/
structure FS where
  /-- Content of `.dockerignore`, `none` when absent. -/
  dockerignore : Option String
  /-- Content of the backup file `.dockerignore.cog.bak`, `none` when absent. -/
  dockerignoreBak : Option String
  /-- The weights-manifest cache file `.cog/cache/weights_manifest.json`. -/
  manifestCache : CacheFile
  /-- Content of the bundled schema file `.cog/openapi_schema.json`. -/
  bundledSchema : Option String
  /-- Content of the bundled schema helper `.cog/schema.py`. -/
  bundledSchemaPy : Option String
deriving DecidableEq, Repr

/-- Embeds `backupDockerignore` (build.go:399-410): if `.dockerignore` does not
exist, do nothing; otherwise rename it to `.dockerignore.cog.bak`
(`os.Rename` overwrites an existing backup). -/
def backupDockerignore (fs : FS) : FS :=
  match fs.dockerignore with
  | none => fs
  | some c => { fs with dockerignore := none, dockerignoreBak := some c }

/-- Embeds `writeDockerignore` (build.go:386-397): if the backup file exists,
prepend its content (joined with a newline) to `contents`, then write the
result as `.dockerignore`. -/
def writeDockerignore (contents : String) (fs : FS) : FS :=
  match fs.dockerignoreBak with
  | some existing => { fs with dockerignore := some (existing ++ "\n" ++ contents) }
  | none => { fs with dockerignore := some contents }

/-- Embeds `restoreDockerignore` (build.go:412-426): `os.Remove(".dockerignore")`
— an error (returned) if the file is absent — then, if the backup exists,
rename it back to `.dockerignore`. -/
def restoreDockerignore (fs : FS) : Except String FS :=
  match fs.dockerignore with
  | none => .error "remove .dockerignore: no such file or directory"
  | some _ =>
    match fs.dockerignoreBak with
    | none => .ok { fs with dockerignore := none }
    | some b => .ok { fs with dockerignore := some b, dockerignoreBak := none }

/-- Modelled from the spec: `dockerfile.DockerignoreHeader` (package
`pkg/dockerfile`, not in `src/`) is the fixed exclusion-file body written for
the weights-image build phase.  Its exact text is immaterial here. -/
def DockerignoreHeader : String := "# generated by cog"

/-- Observable interactions of one `Build` run with its collaborators. -/
inductive Event where
  /-- One `docker.Build` invocation: the Dockerfile contents and target image name. -/
  | engineBuild (dockerfileContents : String) (imageName : String)
  /-- A call of `backupDockerignore`. -/
  | ignoreBackup
  /-- A call of `writeDockerignore` with the given (pre-prepend) contents. -/
  | ignoreWrite (contents : String)
  /-- A call of `restoreDockerignore`. -/
  | ignoreRestore
  /-- Construction of the Dockerfile generator (`dockerfile.NewGenerator`). -/
  | genCreate
  /-- A call of `generator.GenerateModelBaseWithSeparateWeights`. -/
  | genSeparate
  /-- A call of `generator.GenerateDockerfileWithoutSeparateWeights`. -/
  | genUnified
  /-- A call of `generator.GenerateWeightsManifest`. -/
  | genManifest
  /-- Reading the `DiffID` digest of the base-image layer at the given index. -/
  | diffIdRead (idx : Nat)
  /-- A git subprocess invocation with the given arguments. -/
  | gitCall (args : String)
  /-- The final `docker.BuildAddLabelsAndSchemaToImage` call with the label set. -/
  | attachLabels (labels : List (String × String))
deriving DecidableEq, Repr

/-- The state threaded through one `Build` run: the file system and the trace
of collaborator interactions so far. -/
structure BuildSt where
  fs : FS
  trace : List Event
deriving Repr

/-- The `docker.Build` invocations recorded in a trace, in order. -/
def engineCalls (tr : List Event) : List (String × String) :=
  tr.filterMap fun e =>
    match e with
    | .engineBuild d i => some (d, i)
    | _ => none

/-- Is this event part of the weight-separation / instruction-generation
machinery (exclusion-file backup/write/restore, generator work)? -/
def isWeightSepEvent : Event → Bool
  | .ignoreBackup => true
  | .ignoreWrite _ => true
  | .ignoreRestore => true
  | .genCreate => true
  | .genSeparate => true
  | .genUnified => true
  | .genManifest => true
  | _ => false

/-- Is this event a `DiffID` read of a base-image layer? -/
def isDiffIdRead : Event → Bool
  | .diffIdRead _ => true
  | _ => false

/-- The label set passed to the final `docker.BuildAddLabelsAndSchemaToImage`
call, if the run got that far. -/
def attachedLabels (tr : List Event) : Option (List (String × String)) :=
  tr.reverse.findSome? fun e =>
    match e with
    | .attachLabels l => some l
    | _ => none

/-- `backupDockerignore` lifted to `BuildSt`, recording the event. -/
def stBackupDockerignore (st : BuildSt) : BuildSt :=
  { st with fs := backupDockerignore st.fs, trace := st.trace ++ [.ignoreBackup] }

/-- `writeDockerignore` lifted to `BuildSt`, recording the event. -/
def stWriteDockerignore (contents : String) (st : BuildSt) : BuildSt :=
  { st with fs := writeDockerignore contents st.fs, trace := st.trace ++ [.ignoreWrite contents] }

/-- `restoreDockerignore` lifted to `BuildSt`, recording the event. -/
def stRestoreDockerignore (st : BuildSt) : BuildSt × Except String Unit :=
  match restoreDockerignore st.fs with
  | .error e => ({ st with trace := st.trace ++ [.ignoreRestore] }, .error e)
  | .ok fs => ({ st with fs := fs, trace := st.trace ++ [.ignoreRestore] }, .ok ())

/-- One `docker.Build` call.  `eng n` is the engine's success/failure answer to
the `n`-th build invocation of this run (0-based); the invocation is recorded
in the trace whether or not it succeeds. -/
def dockerBuild (eng : Nat → Bool) (contents imageName : String) (st : BuildSt) :
    BuildSt × Except String Unit :=
  let n := (engineCalls st.trace).length
  let st := { st with trace := st.trace ++ [.engineBuild contents imageName] }
  if eng n then (st, .ok ()) else (st, .error "build failed")

/-- Embeds `makeDockerignoreForWeightsImage` (build.go:375-384): backup, then
write the fixed weights-phase exclusion body. -/
def makeDockerignoreForWeightsImage (st : BuildSt) : BuildSt :=
  stWriteDockerignore DockerignoreHeader (stBackupDockerignore st)

/-- Embeds `buildWeightsImage` (build.go:352-360). -/
def buildWeightsImage (eng : Nat → Bool) (dockerfileContents imageName : String)
    (st : BuildSt) : BuildSt × Except String Unit :=
  let st := makeDockerignoreForWeightsImage st
  match dockerBuild eng dockerfileContents imageName st with
  | (st, .error e) =>
    (st, .error ("Failed to build Docker image for model weights: " ++ e))
  | (st, .ok ()) => (st, .ok ())

/-- Embeds `buildRunnerImage` (build.go:362-373): write the runner-phase
exclusion body, build, and — only if the build succeeded — restore. -/
def buildRunnerImage (eng : Nat → Bool) (dockerfileContents dockerignoreContents imageName : String)
    (st : BuildSt) : BuildSt × Except String Unit :=
  let st := stWriteDockerignore dockerignoreContents st
  match dockerBuild eng dockerfileContents imageName st with
  | (st, .error e) => (st, .error ("Failed to build Docker image: " ++ e))
  | (st, .ok ()) =>
    match stRestoreDockerignore st with
    | (st, .error e) => (st, .error ("Failed to restore backup .dockerignore file: " ++ e))
    | (st, .ok ()) => (st, .ok ())

/-- Embeds `checkCompatibleDockerIgnore` (build.go:428-441).  The
`dockerignore.CreateMatcher` collaborator is not in `src/`; its outcome is the
argument: an error, no matcher (no `.dockerignore` to scan), or a path-matching
predicate derived from the exclusion file. -/
def checkCompatibleDockerIgnore (matcher : Except String (Option (String → Bool))) :
    Except String Unit :=
  match matcher with
  | .error e => .error e
  | .ok none => .ok ()
  | .ok (some m) =>
    if m ".cog" then
      .error "The .cog tmp path cannot be ignored by docker in .dockerignore."
    else
      .ok ()

/-- The environment seen by the provenance resolver: the two CI variables and
the answers the git subprocesses would give.  `isWorkTree` is the result of the
`rev-parse --is-inside-work-tree` probe (`isGitWorkTree`, build.go:300-310); a
probe failure is already folded into `false`, as in the source. -/
structure GitEnv where
  githubSha : Option String
  githubRefName : Option String
  isWorkTree : Bool
  headOut : Except String String
  tagOut : Except String String

/-- The subprocess-querying tail of `gitHead` (build.go:317-329): probe for a
work tree; if it is one, run `git rev-parse HEAD`, else fail.  Returns the
result together with the list of git subprocess invocations made. -/
def gitHeadQuery (env : GitEnv) : Except String String × List String :=
  if env.isWorkTree then
    (env.headOut, ["rev-parse --is-inside-work-tree", "rev-parse HEAD"])
  else
    (.error "Failed to find HEAD commit: git error", ["rev-parse --is-inside-work-tree"])

/-- Embeds `gitHead` (build.go:312-330): a present, non-empty `GITHUB_SHA`
short-circuits without any subprocess; otherwise query git. -/
def gitHead (env : GitEnv) : Except String String × List String :=
  match env.githubSha with
  | some v => if v ≠ "" then (.ok v, []) else gitHeadQuery env
  | none => gitHeadQuery env

/-- The subprocess-querying tail of `gitTag` (build.go:337-349). -/
def gitTagQuery (env : GitEnv) : Except String String × List String :=
  if env.isWorkTree then
    (env.tagOut, ["rev-parse --is-inside-work-tree", "describe --tags --dirty"])
  else
    (.error "Failed to find ref name: git error", ["rev-parse --is-inside-work-tree"])

/-- Embeds `gitTag` (build.go:332-350): a present, non-empty `GITHUB_REF_NAME`
short-circuits without any subprocess; otherwise query git. -/
def gitTag (env : GitEnv) : Except String String × List String :=
  match env.githubRefName with
  | some v => if v ≠ "" then (.ok v, []) else gitTagQuery env
  | none => gitTagQuery env

/-- Go map assignment `labels[k] = v` on an association list with unique keys:
drop any existing binding for `k`, append `(k, v)`. -/
def setLabel (labels : List (String × String)) (k v : String) : List (String × String) :=
  labels.filter (fun p => p.1 ≠ k) ++ [(k, v)]

/-- Go map lookup `labels[k]` on an association list with unique keys. -/
def lookupLabel (labels : List (String × String)) (k : String) : Option String :=
  (labels.find? (fun p => p.1 = k)).map Prod.snd

/-- The value the final attach call gives to one label key, if the run got
that far. -/
def attachedLabel (tr : List Event) (k : String) : Option String :=
  (attachedLabels tr).bind fun l => lookupLabel l k

/-- Modelled from the spec: `global.LabelNamespace` (package `pkg/global`, not
in `src/`), the private namespace prefix for cog's internal labels. -/
def LabelNamespace : String := "run.cog."

/-- Modelled from the spec: `command.CogVersionLabelKey` (not in `src/`). -/
def CogVersionLabelKey : String := "run.cog.version"

/-- Modelled from the spec: `command.CogConfigLabelKey` (not in `src/`). -/
def CogConfigLabelKey : String := "run.cog.config"

/-- Modelled from the spec: `global.Version` (not in `src/`), the tool version
string recorded in the version label. -/
def globalVersion : String := "dev"

/-- All collaborator outcomes and request data for one `Build` invocation
(build.go:39).  Each fallible collaborator step appears as an `Except` or
`Bool`; `Build` consumes them in source order. -/
structure BuildInput where
  /-- Target image name. -/
  imageName : String
  /-- The `separateWeights` flag. -/
  separateWeights : Bool
  /-- The `dockerfileFile` override: `none` when the flag is empty, otherwise
  the result of `os.ReadFile` on the given path. -/
  dockerfileOverride : Option (Except String String)
  /-- Outcome of `dockerignore.CreateMatcher(dir)` (build.go:429). -/
  matcher : Except String (Option (String → Bool))
  /-- Generator construction: `dockerfile.NewGenerator`, `generator.BuildDir`
  and `generator.BuildContexts` (build.go:65-76); any failure of the three
  early-returns, so they are folded into one outcome. -/
  generatorInit : Except String Unit
  /-- `generator.IsUsingCogBaseImage()` (build.go:89). -/
  isUsingCogBaseImage : Bool
  /-- `generator.BaseImage()` (build.go:90). -/
  baseImage : Except String String
  /-- `generator.GenerateModelBaseWithSeparateWeights(imageName)` (build.go:97):
  weights Dockerfile, runner Dockerfile, runner-phase exclusion-file body. -/
  genSeparate : Except String (String × String × String)
  /-- `generator.GenerateDockerfileWithoutSeparateWeights()` (build.go:128). -/
  genUnified : Except String String
  /-- `generator.GenerateWeightsManifest()` (build.go:106). -/
  genManifest : Except String Manifest
  /-- The build engine's answer to the `n`-th `docker.Build` call of this run. -/
  engine : Nat → Bool
  /-- The `schemaFile` override: `none` when the flag is empty, otherwise the
  result of `os.ReadFile` on the given path (build.go:139-146). -/
  schemaFileOverride : Option (Except String String)
  /-- `GenerateOpenAPISchema` followed by `json.Marshal` (build.go:149-159). -/
  genSchema : Except String String
  /-- Does `openapi3` `loader.LoadFromData(schemaJSON)` succeed (build.go:169)? -/
  schemaLoadOk : Bool
  /-- Does `doc.Validate` succeed (build.go:173)? -/
  schemaValidOk : Bool
  /-- `json.Marshal(cfg)` (build.go:183); marshalling a config cannot fail. -/
  configJSON : String
  /-- `GeneratePipFreeze(imageName, fastFlag)` (build.go:188). -/
  pipFreeze : Except String String
  /-- Does `name.ParseReference(cogBaseImageName)` succeed (build.go:206)? -/
  parseRefOk : Bool
  /-- Does `remote.Image(ref)` succeed (build.go:211)? -/
  fetchOk : Bool
  /-- `img.Layers()` (build.go:216): an error, or the per-layer `DiffID()`
  results in layer order. -/
  layers : Except String (List (Except String String))
  /-- Environment and git answers for the provenance lookups. -/
  git : GitEnv
  /-- The `annotations` map, as a list of key/value pairs with unique keys. -/
  annotations : List (String × String)
  /-- Does `docker.BuildAddLabelsAndSchemaToImage` succeed (build.go:254)? -/
  attachOk : Bool

/-- The base-image lineage block of the label phase (build.go:203-236): when a
cog base image is in use, record its name, fetch it remotely, enumerate its
layers, fail on zero layers, and record the last layer's digest and index. -/
def baseImageLabels (inp : BuildInput) (cogBaseImageName : String)
    (labels : List (String × String)) (st : BuildSt) :
    BuildSt × Except String (List (String × String)) :=
  if cogBaseImageName = "" then (st, .ok labels) else
  let labels := setLabel labels (LabelNamespace ++ "cog-base-image-name") cogBaseImageName
  if !inp.parseRefOk then (st, .error "Failed to parse cog base image reference") else
  if !inp.fetchOk then (st, .error "Failed to fetch cog base image") else
  match inp.layers with
  | .error e => (st, .error ("Failed to get layers for cog base image: " ++ e))
  | .ok layers =>
    match layers.getLast? with
    | none =>
      -- len(layers) == 0
      (st, .error ("Cog base image has no layers: " ++ cogBaseImageName))
    | some lastRes =>
      let lastLayerIndex := layers.length - 1
      let st := { st with trace := st.trace ++ [.diffIdRead lastLayerIndex] }
      match lastRes with
      | .error e => (st, .error ("Failed to get last layer digest for cog base image: " ++ e))
      | .ok digest =>
        (st, .ok (setLabel
          (setLabel labels (LabelNamespace ++ "cog-base-image-last-layer-sha") digest)
          (LabelNamespace ++ "cog-base-image-last-layer-idx") (toString lastLayerIndex)))

/-- Schema resolution (build.go:138-160): an explicit schema file's bytes are
used verbatim; otherwise introspect the built image and marshal the result. -/
def resolveSchema (inp : BuildInput) : Except String String :=
  match inp.schemaFileOverride with
  | some (.error e) => .error ("Failed to read schema file: " ++ e)
  | some (.ok data) => .ok data
  | none =>
    match inp.genSchema with
    | .error e => .error ("Failed to get type signature: " ++ e)
    | .ok s => .ok s

/-- The provenance labels (build.go:238-248): the commit / tag label is set
iff the resolver returned a non-empty value without error. -/
def provenanceLabels (env : GitEnv) (labels : List (String × String)) :
    List (String × String) :=
  let labels :=
    match (gitHead env).1 with
    | .ok commit =>
      if commit ≠ "" then setLabel labels "org.opencontainers.image.revision" commit
      else labels
    | .error _ => labels
  match (gitTag env).1 with
  | .ok tag =>
    if tag ≠ "" then setLabel labels "org.opencontainers.image.version" tag
    else labels
  | .error _ => labels

/-- The final label set: provenance labels, then the caller's annotations
applied last (build.go:250-252). -/
def finalLabels (inp : BuildInput) (labels : List (String × String)) :
    List (String × String) :=
  inp.annotations.foldl (fun l kv => setLabel l kv.1 kv.2) (provenanceLabels inp.git labels)

/-- Provenance lookup (recording the git subprocess calls), annotation
override, and the final `docker.BuildAddLabelsAndSchemaToImage` call
(build.go:238-256). -/
def provenanceAndAttach (inp : BuildInput) (labels : List (String × String))
    (st : BuildSt) : BuildSt × Except String Unit :=
  let st :=
    { st with trace := st.trace ++ (gitHead inp.git).2.map Event.gitCall
        ++ (gitTag inp.git).2.map Event.gitCall
        ++ [Event.attachLabels (finalLabels inp labels)] }
  if inp.attachOk then (st, .ok ()) else (st, .error "Failed to add labels to image")

/-- The initial label map literal (build.go:193-201): tool version, trimmed
config JSON, schema JSON, pip freeze, and the has-init marker. -/
def initialLabels (inp : BuildInput) (schemaJSON pipFreezeText : String) :
    List (String × String) :=
  setLabel (setLabel (setLabel (setLabel (setLabel []
    CogVersionLabelKey globalVersion)
    CogConfigLabelKey inp.configJSON.trim)
    (LabelNamespace ++ "openapi_schema") schemaJSON)
    (LabelNamespace ++ "pip_freeze") pipFreezeText)
    (LabelNamespace ++ "has_init") "true"

/-- The label-assembly phase (build.go:178-256): pip freeze, the namespaced
internal labels, base-image lineage, provenance and annotations. -/
def labelPhase (inp : BuildInput) (cogBaseImageName schemaJSON : String)
    (st : BuildSt) : BuildSt × Except String Unit :=
  match inp.pipFreeze with
  | .error e => (st, .error ("Failed to generate pip freeze from image: " ++ e))
  | .ok pipFreezeText =>
    match baseImageLabels inp cogBaseImageName (initialLabels inp schemaJSON pipFreezeText) st with
    | (st, .error e) => (st, .error e)
    | (st, .ok labels) => provenanceAndAttach inp labels st

/-- The tail of `Build` shared by all build paths (build.go:138-257): schema
resolution, bundled-schema write (before parsing/validation, build.go:163),
schema validation, then the label phase. -/
def finishBuild (inp : BuildInput) (cogBaseImageName : String) (st : BuildSt) :
    BuildSt × Except String Unit :=
  match resolveSchema inp with
  | .error e => (st, .error e)
  | .ok schemaJSON =>
    -- save open_api schema file (build.go:163) — before parsing/validation
    let st := { st with fs := { st.fs with bundledSchema := some schemaJSON } }
    if !inp.schemaLoadOk then (st, .error "Failed to load model schema JSON") else
    if !inp.schemaValidOk then
      (st, .error ("Model schema is invalid: " ++ schemaJSON))
    else labelPhase inp cogBaseImageName schemaJSON st

/-- The weight-separation build phase of `Build` (build.go:96-126): generate
the split instruction sets, back up the exclusion file, generate the current
weights manifest, load the persisted one (error discarded), rebuild and persist
on change, skip on match, then build the runner image. -/
def separatePhase (inp : BuildInput) (st : BuildSt) : BuildSt × Except String Unit :=
  let st := { st with trace := st.trace ++ [.genSeparate] }
  match inp.genSeparate with
  | .error e => (st, .error ("Failed to generate Dockerfile: " ++ e))
  | .ok (weightsDockerfile, runnerDockerfile, dockerignoreBody) =>
    let st := stBackupDockerignore st
    let st := { st with trace := st.trace ++ [.genManifest] }
    match inp.genManifest with
    | .error e => (st, .error ("Failed to generate weights manifest: " ++ e))
    | .ok weightsManifest =>
      let cachedManifest := loadManifest st.fs.manifestCache
      let changed :=
        match cachedManifest with
        | none => true
        | some cached => !(weightsManifest.Equal cached)
      let afterWeights : BuildSt × Except String Unit :=
        if changed then
          match buildWeightsImage inp.engine weightsDockerfile (inp.imageName ++ "-weights") st with
          | (st, .error e) => (st, .error ("Failed to build model weights Docker image: " ++ e))
          | (st, .ok ()) =>
            -- weightsManifest.Save (build.go:116), only after a successful build
            ({ st with fs := { st.fs with manifestCache := .stored weightsManifest } }, .ok ())
        else
          -- "Weights unchanged, skip rebuilding and use cached image..."
          (st, .ok ())
      match afterWeights with
      | (st, .error e) => (st, .error e)
      | (st, .ok ()) =>
        match buildRunnerImage inp.engine runnerDockerfile dockerignoreBody inp.imageName st with
        | (st, .error e) => (st, .error ("Failed to build runner Docker image: " ++ e))
        | (st, .ok ()) => (st, .ok ())

/-- Embeds `Build` (build.go:39-258). -/
def Build (inp : BuildInput) (st0 : BuildSt) : BuildSt × Except String Unit :=
  -- remove bundled schema files that may be left from previous builds (build.go:46-47)
  let st : BuildSt :=
    { st0 with fs := { st0.fs with bundledSchema := none, bundledSchemaPy := none } }
  match checkCompatibleDockerIgnore inp.matcher with
  | .error e => (st, .error e)
  | .ok () =>
    match inp.dockerfileOverride with
    | some (.error e) => (st, .error ("Failed to read Dockerfile: " ++ e))
    | some (.ok dockerfileContents) =>
      -- single unified build from the override contents, verbatim (build.go:60-62)
      match dockerBuild inp.engine dockerfileContents inp.imageName st with
      | (st, .error e) => (st, .error ("Failed to build Docker image: " ++ e))
      | (st, .ok ()) => finishBuild inp "" st
    | none =>
      match inp.generatorInit with
      | .error e => (st, .error e)
      | .ok () =>
        let st := { st with trace := st.trace ++ [.genCreate] }
        let baseNameRes : Except String String :=
          if inp.isUsingCogBaseImage then
            match inp.baseImage with
            | .error e => .error ("Failed to get cog base image name: " ++ e)
            | .ok nm => .ok nm
          else .ok ""
        match baseNameRes with
        | .error e => (st, .error e)
        | .ok cogBaseImageName =>
          if inp.separateWeights then
            match separatePhase inp st with
            | (st, .error e) => (st, .error e)
            | (st, .ok ()) => finishBuild inp cogBaseImageName st
          else
            let st := { st with trace := st.trace ++ [.genUnified] }
            match inp.genUnified with
            | .error e => (st, .error ("Failed to generate Dockerfile: " ++ e))
            | .ok dockerfileContents =>
              match dockerBuild inp.engine dockerfileContents inp.imageName st with
              | (st, .error e) => (st, .error ("Failed to build Docker image: " ++ e))
              | (st, .ok ()) => finishBuild inp cogBaseImageName st

/-! ## Concrete fixtures -/

/-- A fully-populated `BuildInput` in which every collaborator succeeds, no
override is given, no cog base image is used and weight separation is off.
Individual scenarios below override the relevant fields. -/
def baseInput : BuildInput where
  imageName := "img"
  separateWeights := false
  dockerfileOverride := none
  matcher := .ok none
  generatorInit := .ok ()
  isUsingCogBaseImage := false
  baseImage := .ok "base-img"
  genSeparate := .ok ("WEIGHTS-DF", "RUNNER-DF", "IGNORE-BODY")
  genUnified := .ok "UNIFIED-DF"
  genManifest := .ok ⟨[("weights.bin", "hash1")]⟩
  engine := fun _ => true
  schemaFileOverride := some (.ok "schema-json")
  genSchema := .ok "generated-schema"
  schemaLoadOk := true
  schemaValidOk := true
  configJSON := "config-json"
  pipFreeze := .ok "freeze-text"
  parseRefOk := true
  fetchOk := true
  layers := .ok [.ok "sha-layer-0"]
  git :=
    { githubSha := none
      githubRefName := none
      isWorkTree := false
      headOut := .error "git failed"
      tagOut := .error "git failed" }
  annotations := []
  attachOk := true

/-- An initial state: a user `.dockerignore` with content `"user-rules"`, no
backup, no cached manifest, no bundled schema files, empty trace. -/
def startState : BuildSt where
  fs :=
    { dockerignore := some "user-rules"
      dockerignoreBak := none
      manifestCache := .missing
      bundledSchema := none
      bundledSchemaPy := none }
  trace := []

/-- C1 scenario: weight separation on, the weights-phase engine call succeeds
and the runner-phase engine call fails. -/
def c1Input : BuildInput :=
  { baseInput with separateWeights := true, engine := fun n => n == 0 }


/-- C3/C7/C8/C9 base scenario: a raw Dockerfile override is supplied and read
successfully. -/
def overrideInput : BuildInput :=
  { baseInput with dockerfileOverride := some (.ok "OVERRIDE-DF") }

/-- C2/C10 scenario: weight separation on, all collaborators succeed. -/
def c2Input : BuildInput :=
  { baseInput with separateWeights := true }

/-- C4 scenario: the exclusion file's matcher matches the `.cog` path. -/
def c4Input : BuildInput :=
  { baseInput with matcher := .ok (some fun s => s == ".cog") }

/-- C5 scenario: a cog base image is in use, with one remote layer. -/
def c5Input : BuildInput :=
  { baseInput with isUsingCogBaseImage := true }

/-- C8 scenario: an annotation that collides with a namespaced internal label. -/
def c8Input : BuildInput :=
  { overrideInput with annotations := [("run.cog.config", "user-override")] }

/-- C9 scenario: the schema document fails validation. -/
def c9Input : BuildInput :=
  { overrideInput with schemaValidOk := false }

/-- C7 witness environment: CI variables present and non-empty. -/
def c7Env : GitEnv where
  githubSha := some "abc"
  githubRefName := some "abc"
  isWorkTree := false
  headOut := .error "no-git"
  tagOut := .error "no-git"

/-- C10 start state: the weights-manifest cache file exists but is unreadable. -/
def corruptState : BuildSt :=
  { startState with fs := { startState.fs with manifestCache := .corrupt } }

/-! ## Helper lemmas about traces and labels -/

theorem engineCalls_nil : engineCalls [] = [] := rfl

theorem engineCalls_cons_engineBuild (d i : String) (tr : List Event) :
    engineCalls (Event.engineBuild d i :: tr) = (d, i) :: engineCalls tr := rfl

theorem engineCalls_cons_ignoreBackup (tr : List Event) :
    engineCalls (Event.ignoreBackup :: tr) = engineCalls tr := rfl

theorem engineCalls_cons_ignoreWrite (c : String) (tr : List Event) :
    engineCalls (Event.ignoreWrite c :: tr) = engineCalls tr := rfl

theorem engineCalls_cons_ignoreRestore (tr : List Event) :
    engineCalls (Event.ignoreRestore :: tr) = engineCalls tr := rfl

theorem engineCalls_cons_genCreate (tr : List Event) :
    engineCalls (Event.genCreate :: tr) = engineCalls tr := rfl

theorem engineCalls_cons_genSeparate (tr : List Event) :
    engineCalls (Event.genSeparate :: tr) = engineCalls tr := rfl

theorem engineCalls_cons_genUnified (tr : List Event) :
    engineCalls (Event.genUnified :: tr) = engineCalls tr := rfl

theorem engineCalls_cons_genManifest (tr : List Event) :
    engineCalls (Event.genManifest :: tr) = engineCalls tr := rfl

theorem engineCalls_append (a b : List Event) :
    engineCalls (a ++ b) = engineCalls a ++ engineCalls b := by
  simp [engineCalls, List.filterMap_append]

theorem engineCalls_gitCalls (l : List String) :
    engineCalls (l.map Event.gitCall) = [] := by
  induction l with
  | nil => rfl
  | cons h t ih =>
    rw [List.map_cons]
    exact ih

theorem weightSepFilter_gitCalls (l : List String) :
    (l.map Event.gitCall).filter isWeightSepEvent = [] := by
  induction l with
  | nil => rfl
  | cons h t ih =>
    rw [List.map_cons, List.filter_cons_of_neg (by simp [isWeightSepEvent])]
    exact ih

/-- `provenanceAndAttach` adds no `docker.Build` call, no weight-separation
event, and does not change the file system. -/
theorem provenanceAndAttach_frame (inp : BuildInput) (labels : List (String × String))
    (st : BuildSt) :
    engineCalls (provenanceAndAttach inp labels st).1.trace = engineCalls st.trace ∧
    ((provenanceAndAttach inp labels st).1.trace).filter isWeightSepEvent =
      st.trace.filter isWeightSepEvent ∧
    (provenanceAndAttach inp labels st).1.fs = st.fs := by
  unfold provenanceAndAttach
  split <;>
    simp [engineCalls_append, engineCalls_gitCalls, engineCalls, List.filter_append,
      weightSepFilter_gitCalls, isWeightSepEvent]

/-- `baseImageLabels` adds no `docker.Build` call, no weight-separation event,
and does not change the file system. -/
theorem baseImageLabels_frame (inp : BuildInput) (c : String)
    (labels : List (String × String)) (st : BuildSt) :
    engineCalls (baseImageLabels inp c labels st).1.trace = engineCalls st.trace ∧
    ((baseImageLabels inp c labels st).1.trace).filter isWeightSepEvent =
      st.trace.filter isWeightSepEvent ∧
    (baseImageLabels inp c labels st).1.fs = st.fs := by
  unfold baseImageLabels
  repeat' split
  all_goals
    simp [engineCalls_append, engineCalls, List.filter_append, isWeightSepEvent]

/-- `labelPhase` adds no `docker.Build` call, no weight-separation event, and
does not change the file system. -/
theorem labelPhase_frame (inp : BuildInput) (c s : String) (st : BuildSt) :
    engineCalls (labelPhase inp c s st).1.trace = engineCalls st.trace ∧
    ((labelPhase inp c s st).1.trace).filter isWeightSepEvent =
      st.trace.filter isWeightSepEvent ∧
    (labelPhase inp c s st).1.fs = st.fs := by
  unfold labelPhase
  split
  · exact ⟨rfl, rfl, rfl⟩
  · rename_i pipFreezeText hpf
    split
    · rename_i st' e heq
      have hb := baseImageLabels_frame inp c (initialLabels inp s pipFreezeText) st
      rw [heq] at hb
      exact hb
    · rename_i st' labels' heq
      have hb := baseImageLabels_frame inp c (initialLabels inp s pipFreezeText) st
      rw [heq] at hb
      have hp := provenanceAndAttach_frame inp labels' st'
      exact ⟨hp.1.trans hb.1, hp.2.1.trans hb.2.1, hp.2.2.trans hb.2.2⟩

/-- `finishBuild` adds no `docker.Build` call and no weight-separation event;
of the file system it changes only the bundled-schema file. -/
theorem finishBuild_frame (inp : BuildInput) (c : String) (st : BuildSt) :
    engineCalls (finishBuild inp c st).1.trace = engineCalls st.trace ∧
    ((finishBuild inp c st).1.trace).filter isWeightSepEvent =
      st.trace.filter isWeightSepEvent ∧
    (finishBuild inp c st).1.fs.dockerignore = st.fs.dockerignore ∧
    (finishBuild inp c st).1.fs.dockerignoreBak = st.fs.dockerignoreBak ∧
    (finishBuild inp c st).1.fs.manifestCache = st.fs.manifestCache := by
  unfold finishBuild
  split
  · exact ⟨rfl, rfl, rfl, rfl, rfl⟩
  · rename_i schemaJSON heq
    split
    · exact ⟨rfl, rfl, rfl, rfl, rfl⟩
    · split
      · exact ⟨rfl, rfl, rfl, rfl, rfl⟩
      · have h := labelPhase_frame inp c schemaJSON
          { st with fs := { st.fs with bundledSchema := some schemaJSON } }
        refine ⟨h.1, h.2.1, ?_, ?_, ?_⟩ <;> rw [h.2.2]

theorem lookupLabel_setLabel_same (l : List (String × String)) (k v : String) :
    lookupLabel (setLabel l k v) k = some v := by
  unfold lookupLabel setLabel
  induction l with
  | nil => simp
  | cons a t ih =>
    by_cases h : a.1 = k <;> simp [h] at ih ⊢

theorem lookupLabel_setLabel_other (l : List (String × String)) (k k' v : String)
    (h : k ≠ k') :
    lookupLabel (setLabel l k' v) k = lookupLabel l k := by
  unfold lookupLabel setLabel
  induction l with
  | nil => simp [Ne.symm h]
  | cons a t ih =>
    by_cases ha : a.1 = k'
    · rw [List.filter_cons_of_neg (by simp [ha])]
      rw [List.find?_cons_of_neg _ (by simp [ha, Ne.symm h])]
      exact ih
    · rw [List.filter_cons_of_pos (by simp [ha])]
      by_cases hk : a.1 = k
      · rw [List.cons_append, List.find?_cons_of_pos _ (by simp [hk]),
          List.find?_cons_of_pos _ (by simp [hk])]
      · rw [List.cons_append, List.find?_cons_of_neg _ (by simp [hk]),
          List.find?_cons_of_neg _ (by simp [hk])]
        exact ih

/-- Folding Go map assignments whose keys all differ from `k` does not change
the binding of `k`. -/
theorem lookupLabel_foldl_setLabel_not_mem (t : List (String × String))
    (l0 : List (String × String)) (k : String)
    (h : ∀ kv ∈ t, kv.1 ≠ k) :
    lookupLabel (t.foldl (fun acc kv => setLabel acc kv.1 kv.2) l0) k = lookupLabel l0 k := by
  induction t generalizing l0 with
  | nil => rfl
  | cons b u ih =>
    simp only [List.foldl_cons]
    rw [ih _ (fun kv hkv => h kv (by simp [hkv]))]
    exact lookupLabel_setLabel_other l0 k b.1 b.2 (fun hk => (h b (by simp)) hk.symm)

/-- Folding Go map assignments over a list of bindings with unique keys: every
binding ends up in the map. -/
theorem lookupLabel_foldl_setLabel (anns : List (String × String))
    (l : List (String × String)) (k v : String)
    (hmem : (k, v) ∈ anns) (hnodup : (anns.map Prod.fst).Nodup) :
    lookupLabel (anns.foldl (fun acc kv => setLabel acc kv.1 kv.2) l) k = some v := by
  induction anns generalizing l with
  | nil => cases hmem
  | cons a t ih =>
    simp only [List.map_cons, List.nodup_cons] at hnodup
    rcases List.mem_cons.mp hmem with heq | hmem'
    · subst heq
      have hnotin : ∀ kv ∈ t, kv.1 ≠ k := by
        intro kv hkv hkk
        have hin : kv.1 ∈ t.map Prod.fst := List.mem_map_of_mem _ hkv
        rw [hkk] at hin
        exact hnodup.1 hin
      simp only [List.foldl_cons]
      rw [lookupLabel_foldl_setLabel_not_mem t _ k hnotin]
      exact lookupLabel_setLabel_same l k v
    · exact ih _ hmem' hnodup.2

theorem finishBuild_engineCalls (inp : BuildInput) (c : String) (st : BuildSt) :
    engineCalls (finishBuild inp c st).1.trace = engineCalls st.trace :=
  (finishBuild_frame inp c st).1

theorem finishBuild_weightSepFilter (inp : BuildInput) (c : String) (st : BuildSt) :
    ((finishBuild inp c st).1.trace).filter isWeightSepEvent =
      st.trace.filter isWeightSepEvent :=
  (finishBuild_frame inp c st).2.1

theorem finishBuild_fs_dockerignore (inp : BuildInput) (c : String) (st : BuildSt) :
    (finishBuild inp c st).1.fs.dockerignore = st.fs.dockerignore :=
  (finishBuild_frame inp c st).2.2.1

theorem finishBuild_fs_dockerignoreBak (inp : BuildInput) (c : String) (st : BuildSt) :
    (finishBuild inp c st).1.fs.dockerignoreBak = st.fs.dockerignoreBak :=
  (finishBuild_frame inp c st).2.2.2.1

theorem finishBuild_fs_manifestCache (inp : BuildInput) (c : String) (st : BuildSt) :
    (finishBuild inp c st).1.fs.manifestCache = st.fs.manifestCache :=
  (finishBuild_frame inp c st).2.2.2.2

/-- The label set of the final attach event appended to a trace. -/
theorem attachedLabels_append (tr : List Event) (l : List (String × String)) :
    attachedLabels (tr ++ [Event.attachLabels l]) = some l := by
  simp [attachedLabels, List.reverse_append]

/-- The final attach call of `provenanceAndAttach` carries `finalLabels`. -/
theorem attachedLabels_provenanceAndAttach (inp : BuildInput)
    (labels : List (String × String)) (st : BuildSt) :
    attachedLabels (provenanceAndAttach inp labels st).1.trace =
      some (finalLabels inp labels) := by
  unfold provenanceAndAttach
  split <;> exact attachedLabels_append _ _

theorem provenanceAndAttach_ok (inp : BuildInput) (labels : List (String × String))
    (st : BuildSt) (h : inp.attachOk = true) :
    (provenanceAndAttach inp labels st).2 = .ok () := by
  unfold provenanceAndAttach
  simp [h]

/-- On the Dockerfile-override path with a successful engine call, `Build`
reduces to `finishBuild` with no cog base image name. -/
theorem Build_override_ok (inp : BuildInput) (st0 : BuildSt) (contents : String)
    (hover : inp.dockerfileOverride = some (.ok contents))
    (hcheck : checkCompatibleDockerIgnore inp.matcher = .ok ())
    (htrace : st0.trace = [])
    (heng : inp.engine 0 = true) :
    Build inp st0 = finishBuild inp ""
      { fs := { st0.fs with bundledSchema := none, bundledSchemaPy := none },
        trace := [Event.engineBuild contents inp.imageName] } := by
  unfold Build dockerBuild
  simp [hover, hcheck, htrace, heng, engineCalls_nil]

/-- With a schema-file override, successful validation and pip freeze, and no
cog base image, `finishBuild` reduces to the provenance/attach step on the
initial label set. -/
theorem finishBuild_ok_noBase (inp : BuildInput) (st : BuildSt) (sj pf : String)
    (hsf : inp.schemaFileOverride = some (.ok sj))
    (hload : inp.schemaLoadOk = true)
    (hvalid : inp.schemaValidOk = true)
    (hpf : inp.pipFreeze = .ok pf) :
    finishBuild inp "" st =
      provenanceAndAttach inp (initialLabels inp sj pf)
        { st with fs := { st.fs with bundledSchema := some sj } } := by
  unfold finishBuild resolveSchema labelPhase baseImageLabels
  simp [hsf, hload, hvalid, hpf]

/-- Provenance label assignment leaves every other key unchanged. -/
theorem lookupLabel_provenanceLabels (env : GitEnv) (labels : List (String × String))
    (k : String)
    (h1 : k ≠ "org.opencontainers.image.revision")
    (h2 : k ≠ "org.opencontainers.image.version") :
    lookupLabel (provenanceLabels env labels) k = lookupLabel labels k := by
  have hrev := fun l v => lookupLabel_setLabel_other l k "org.opencontainers.image.revision" v h1
  have hver := fun l v => lookupLabel_setLabel_other l k "org.opencontainers.image.version" v h2
  unfold provenanceLabels
  repeat' split
  all_goals simp only [hrev, hver]

/-- **C1.** The claim asserts that on every exit path of a weight-separated
`Build` the exclusion file is restored to its pre-run state (`restore()` runs
exactly once per `backup()`).  The code violates this: `restoreDockerignore`
runs only after a *successful* runner-phase `docker.Build`
(`buildRunnerImage`, build.go:362-373), so a build-engine failure in the
runner phase returns early and leaves `.dockerignore` overwritten with the
generated body and the backup file still on disk.  This theorem evaluates the
pipeline at such a run: the user's `.dockerignore` held `"user-rules"` before
the run, and afterwards it holds the generated runner-phase content while the
backup file still exists — not the pre-run state required by the claim and by
the spec's invariant (spec §4.2), which the spec itself flags as a latent bug
(spec §9). -/
theorem build_leaves_dockerignore_overwritten_on_runner_failure :
    (Build c1Input startState).2 =
      .error "Failed to build runner Docker image: Failed to build Docker image: build failed" ∧
    (Build c1Input startState).1.fs.dockerignore = some "user-rules\nIGNORE-BODY" ∧
    (Build c1Input startState).1.fs.dockerignoreBak = some "user-rules" ∧
    startState.fs.dockerignore = some "user-rules" ∧
    startState.fs.dockerignoreBak = none ∧
    (Build c1Input startState).1.fs.dockerignore ≠ startState.fs.dockerignore := by
  refine ⟨rfl, rfl, rfl, rfl, rfl, ?_⟩
  decide

/-- **C6.** `writeDockerignore contents` produces, as the active exclusion
file, the backup's content prepended to `contents` (joined with a newline)
when a backup exists, and `contents` alone when none exists; and it is
idempotent: writing the same contents twice equals writing them once. -/
theorem writeDockerignore_prepend_and_idempotent (fs : FS) (contents : String) :
    (writeDockerignore contents fs).dockerignore =
      some (match fs.dockerignoreBak with
            | some b => b ++ "\n" ++ contents
            | none => contents) ∧
    writeDockerignore contents (writeDockerignore contents fs) =
      writeDockerignore contents fs := by
  cases h : fs.dockerignoreBak <;> simp [writeDockerignore, h]

/-- **C3.** When a raw Dockerfile override is supplied (and the exclusion-file
compatibility check passes, so the run reaches the build), exactly one build
engine invocation is performed, with the override file's bytes verbatim as the
instructions, and no generation / weight-separation / exclusion-file
backup-write-restore operation runs — whatever the value of
`separateWeights`. -/
theorem build_override_single_verbatim_build (inp : BuildInput) (st0 : BuildSt)
    (contents : String)
    (hover : inp.dockerfileOverride = some (.ok contents))
    (hcheck : checkCompatibleDockerIgnore inp.matcher = .ok ())
    (htrace : st0.trace = []) :
    engineCalls (Build inp st0).1.trace = [(contents, inp.imageName)] ∧
    ((Build inp st0).1.trace).filter isWeightSepEvent = [] := by
  unfold Build dockerBuild
  simp only [hover, hcheck, htrace]
  cases heng : inp.engine (engineCalls ([] : List Event)).length with
  | false => simp [heng, engineCalls, isWeightSepEvent]
  | true =>
    simp only [heng, ite_true]
    constructor
    · rw [(finishBuild_frame inp "" _).1]
      simp [engineCalls]
    · rw [(finishBuild_frame inp "" _).2.1]
      simp [isWeightSepEvent]

/-- **C2.** In a weight-separated build (no override, the run reaches the
weights decision): if the persisted manifest exists and is `Equal` to the
freshly generated one, the weights-image build is skipped and the engine is
invoked exactly once, on the runner Dockerfile.  Otherwise the weights image
is built first (as `imageName ++ "-weights"`); if that engine call fails the
persisted manifest is unchanged and `Build` aborts, and if it succeeds the
fresh manifest is persisted and the engine is invoked exactly twice — weights
image then runner image. -/
theorem build_weights_cache_decision (inp : BuildInput) (st0 : BuildSt)
    (w r ig : String) (m : Manifest)
    (hover : inp.dockerfileOverride = none)
    (hcheck : checkCompatibleDockerIgnore inp.matcher = .ok ())
    (hgen : inp.generatorInit = .ok ())
    (hbase : inp.isUsingCogBaseImage = false)
    (hsep : inp.separateWeights = true)
    (hsplit : inp.genSeparate = .ok (w, r, ig))
    (hman : inp.genManifest = .ok m)
    (htrace : st0.trace = []) :
    ((match loadManifest st0.fs.manifestCache with
      | none => false
      | some c => m.Equal c) = true →
      engineCalls (Build inp st0).1.trace = [(r, inp.imageName)]) ∧
    ((match loadManifest st0.fs.manifestCache with
      | none => true
      | some c => !(m.Equal c)) = true →
      (inp.engine 0 = false →
        engineCalls (Build inp st0).1.trace = [(w, inp.imageName ++ "-weights")] ∧
        (Build inp st0).1.fs.manifestCache = st0.fs.manifestCache ∧
        (Build inp st0).2 = .error
          "Failed to build model weights Docker image: Failed to build Docker image for model weights: build failed") ∧
      (inp.engine 0 = true →
        engineCalls (Build inp st0).1.trace =
          [(w, inp.imageName ++ "-weights"), (r, inp.imageName)] ∧
        (Build inp st0).1.fs.manifestCache = .stored m)) := by
  unfold Build separatePhase buildWeightsImage buildRunnerImage
    makeDockerignoreForWeightsImage stBackupDockerignore stWriteDockerignore
    stRestoreDockerignore dockerBuild backupDockerignore writeDockerignore
    restoreDockerignore
  simp only [hover, hcheck, hgen, hbase, hsep, hsplit, hman, htrace]
  cases hcache : loadManifest st0.fs.manifestCache with
  | none =>
    cases hdi : st0.fs.dockerignore <;>
      cases hdb : st0.fs.dockerignoreBak <;>
        cases heng0 : inp.engine 0 <;>
          cases heng1 : inp.engine 1 <;>
            simp_all [engineCalls_nil, engineCalls_cons_engineBuild,
              engineCalls_cons_ignoreBackup, engineCalls_cons_ignoreWrite,
              engineCalls_cons_ignoreRestore, engineCalls_cons_genCreate,
              engineCalls_cons_genSeparate, engineCalls_cons_genUnified,
              engineCalls_cons_genManifest, finishBuild_engineCalls,
              finishBuild_fs_manifestCache]
  | some c =>
    cases hEq : m.Equal c <;>
      cases hdi : st0.fs.dockerignore <;>
        cases hdb : st0.fs.dockerignoreBak <;>
          cases heng0 : inp.engine 0 <;>
            cases heng1 : inp.engine 1 <;>
              simp_all [engineCalls_nil, engineCalls_cons_engineBuild,
                engineCalls_cons_ignoreBackup, engineCalls_cons_ignoreWrite,
                engineCalls_cons_ignoreRestore, engineCalls_cons_genCreate,
                engineCalls_cons_genSeparate, engineCalls_cons_genUnified,
                engineCalls_cons_genManifest, finishBuild_engineCalls,
                finishBuild_fs_manifestCache]

/-- **C4.** If the source directory's exclusion file excludes the tool's
private working directory `.cog`, `Build` returns the fail-fast error with an
empty interaction trace — before any generation or build-engine work; if the
exclusion file is absent, or present but not matching `.cog`, the
compatibility check passes. -/
theorem build_rejects_ignored_cog_path (inp : BuildInput) (st0 : BuildSt)
    (f : String → Bool)
    (hm : inp.matcher = .ok (some f)) :
    (f ".cog" = true →
      (Build inp st0).2 =
        .error "The .cog tmp path cannot be ignored by docker in .dockerignore." ∧
      (Build inp st0).1.trace = st0.trace) ∧
    (f ".cog" = false → checkCompatibleDockerIgnore inp.matcher = .ok ()) ∧
    checkCompatibleDockerIgnore (.ok none) = .ok () := by
  refine ⟨fun h => ?_, fun h => ?_, rfl⟩
  · unfold Build checkCompatibleDockerIgnore
    simp [hm, h]
  · unfold checkCompatibleDockerIgnore
    simp [hm, h]

/-- Witness for C4 at a concrete matcher that excludes `.cog`. -/
theorem build_rejects_ignored_cog_path_witness :
    ((fun s => s == ".cog") ".cog" = true →
      (Build c4Input startState).2 =
        .error "The .cog tmp path cannot be ignored by docker in .dockerignore." ∧
      (Build c4Input startState).1.trace = startState.trace) ∧
    ((fun s => s == ".cog") ".cog" = false →
      checkCompatibleDockerIgnore c4Input.matcher = .ok ()) ∧
    checkCompatibleDockerIgnore (.ok none) = .ok () :=
  build_rejects_ignored_cog_path c4Input startState (fun s => s == ".cog") rfl

/-- Witness for C3 at a concrete override file. -/
theorem build_override_single_verbatim_build_witness :
    engineCalls (Build overrideInput startState).1.trace =
      [("OVERRIDE-DF", overrideInput.imageName)] ∧
    ((Build overrideInput startState).1.trace).filter isWeightSepEvent = [] :=
  build_override_single_verbatim_build overrideInput startState "OVERRIDE-DF" rfl rfl rfl

/-- Witness for C2 at a concrete first run (no cached manifest). -/
theorem build_weights_cache_decision_witness :
    ((match loadManifest startState.fs.manifestCache with
      | none => false
      | some c => (Manifest.mk [("weights.bin", "hash1")]).Equal c) = true →
      engineCalls (Build c2Input startState).1.trace = [("RUNNER-DF", c2Input.imageName)]) ∧
    ((match loadManifest startState.fs.manifestCache with
      | none => true
      | some c => !((Manifest.mk [("weights.bin", "hash1")]).Equal c)) = true →
      (c2Input.engine 0 = false →
        engineCalls (Build c2Input startState).1.trace =
          [("WEIGHTS-DF", c2Input.imageName ++ "-weights")] ∧
        (Build c2Input startState).1.fs.manifestCache = startState.fs.manifestCache ∧
        (Build c2Input startState).2 = .error
          "Failed to build model weights Docker image: Failed to build Docker image for model weights: build failed") ∧
      (c2Input.engine 0 = true →
        engineCalls (Build c2Input startState).1.trace =
          [("WEIGHTS-DF", c2Input.imageName ++ "-weights"), ("RUNNER-DF", c2Input.imageName)] ∧
        (Build c2Input startState).1.fs.manifestCache =
          .stored (Manifest.mk [("weights.bin", "hash1")]))) :=
  build_weights_cache_decision c2Input startState "WEIGHTS-DF" "RUNNER-DF" "IGNORE-BODY"
    (Manifest.mk [("weights.bin", "hash1")]) rfl rfl rfl rfl rfl rfl rfl rfl

/-- **C9.** When schema validation fails, `Build` returns the validation
error, but the bundled schema file has already been overwritten with the
invalid schema document: the write happens before parsing/validation. -/
theorem build_schema_written_before_validation (inp : BuildInput) (st0 : BuildSt)
    (contents sj : String)
    (hover : inp.dockerfileOverride = some (.ok contents))
    (hcheck : checkCompatibleDockerIgnore inp.matcher = .ok ())
    (htrace : st0.trace = [])
    (heng : inp.engine 0 = true)
    (hsf : inp.schemaFileOverride = some (.ok sj))
    (hload : inp.schemaLoadOk = true)
    (hvalid : inp.schemaValidOk = false) :
    (Build inp st0).2 = .error ("Model schema is invalid: " ++ sj) ∧
    (Build inp st0).1.fs.bundledSchema = some sj := by
  rw [Build_override_ok inp st0 contents hover hcheck htrace heng]
  unfold finishBuild resolveSchema
  simp [hsf, hload, hvalid]

/-- Witness for C9 at a concrete invalid schema document. -/
theorem build_schema_written_before_validation_witness :
    (Build c9Input startState).2 = .error ("Model schema is invalid: " ++ "schema-json") ∧
    (Build c9Input startState).1.fs.bundledSchema = some "schema-json" :=
  build_schema_written_before_validation c9Input startState "OVERRIDE-DF" "schema-json"
    rfl rfl rfl rfl rfl rfl rfl

/-- **C8.** Caller-supplied annotations are applied after every computed
label: any annotation key — including one colliding with a namespaced
internal or provenance label — ends up in the final label set with the
annotation's value. -/
theorem annotations_override_any_label (inp : BuildInput) (st0 : BuildSt)
    (contents sj pf k v : String)
    (hover : inp.dockerfileOverride = some (.ok contents))
    (hcheck : checkCompatibleDockerIgnore inp.matcher = .ok ())
    (htrace : st0.trace = [])
    (heng : inp.engine 0 = true)
    (hsf : inp.schemaFileOverride = some (.ok sj))
    (hload : inp.schemaLoadOk = true)
    (hvalid : inp.schemaValidOk = true)
    (hpf : inp.pipFreeze = .ok pf)
    (hmem : (k, v) ∈ inp.annotations)
    (hnodup : (inp.annotations.map Prod.fst).Nodup) :
    attachedLabel (Build inp st0).1.trace k = some v := by
  rw [Build_override_ok inp st0 contents hover hcheck htrace heng,
    finishBuild_ok_noBase inp _ sj pf hsf hload hvalid hpf]
  unfold attachedLabel
  rw [attachedLabels_provenanceAndAttach]
  unfold finalLabels
  simpa using lookupLabel_foldl_setLabel inp.annotations _ k v hmem hnodup

/-- Witness for C8: an annotation colliding with the internal config label
wins. -/
theorem annotations_override_any_label_witness :
    attachedLabel (Build c8Input startState).1.trace "run.cog.config" =
      some "user-override" :=
  annotations_override_any_label c8Input startState "OVERRIDE-DF" "schema-json"
    "freeze-text" "run.cog.config" "user-override" rfl rfl rfl rfl rfl rfl rfl rfl
    (by decide) (by decide)

/-- **C7.** Commit/tag resolution returns the CI environment value whenever
present and non-empty, with no git subprocess; otherwise the commit query runs
only when the directory is a git work tree (the probe alone otherwise); and a
resolution failure is non-fatal: `Build` completes and merely omits the
provenance labels. -/
theorem provenance_resolution_policy (env : GitEnv) (v : String)
    (inp : BuildInput) (st0 : BuildSt) (contents sj pf : String)
    (hover : inp.dockerfileOverride = some (.ok contents))
    (hcheck : checkCompatibleDockerIgnore inp.matcher = .ok ())
    (htrace : st0.trace = [])
    (heng : inp.engine 0 = true)
    (hsf : inp.schemaFileOverride = some (.ok sj))
    (hload : inp.schemaLoadOk = true)
    (hvalid : inp.schemaValidOk = true)
    (hpf : inp.pipFreeze = .ok pf)
    (hattach : inp.attachOk = true)
    (hann : inp.annotations = [])
    (hsha : inp.git.githubSha = none)
    (href : inp.git.githubRefName = none)
    (hwt : inp.git.isWorkTree = false) :
    (env.githubSha = some v → v ≠ "" → gitHead env = (.ok v, [])) ∧
    (env.githubRefName = some v → v ≠ "" → gitTag env = (.ok v, [])) ∧
    (env.githubSha = none → env.isWorkTree = false →
      gitHead env =
        (.error "Failed to find HEAD commit: git error", ["rev-parse --is-inside-work-tree"])) ∧
    (env.githubSha = none → env.isWorkTree = true →
      gitHead env = (env.headOut, ["rev-parse --is-inside-work-tree", "rev-parse HEAD"])) ∧
    (Build inp st0).2 = .ok () ∧
    attachedLabel (Build inp st0).1.trace "org.opencontainers.image.revision" = none ∧
    attachedLabel (Build inp st0).1.trace "org.opencontainers.image.version" = none := by
  refine ⟨fun h hv => ?_, fun h hv => ?_, fun h hw => ?_, fun h hw => ?_, ?_, ?_, ?_⟩
  · unfold gitHead
    simp [h, hv]
  · unfold gitTag
    simp [h, hv]
  · unfold gitHead gitHeadQuery
    simp [h, hw]
  · unfold gitHead gitHeadQuery
    simp [h, hw]
  all_goals
    rw [Build_override_ok inp st0 contents hover hcheck htrace heng,
      finishBuild_ok_noBase inp _ sj pf hsf hload hvalid hpf]
  · exact provenanceAndAttach_ok _ _ _ hattach
  all_goals
    unfold attachedLabel
    rw [attachedLabels_provenanceAndAttach]
    unfold finalLabels provenanceLabels gitHead gitTag gitHeadQuery gitTagQuery
    simp only [hann, List.foldl_nil, hsha, href, hwt, Bool.false_eq_true, if_false,
      Option.bind_some, Option.some_bind]
    simp [initialLabels, setLabel, lookupLabel, LabelNamespace, CogVersionLabelKey,
      CogConfigLabelKey]

/-- Witness for C7 at a concrete environment and pipeline run. -/
theorem provenance_resolution_policy_witness :
    (c7Env.githubSha = some "abc" → "abc" ≠ "" → gitHead c7Env = (.ok "abc", [])) ∧
    (c7Env.githubRefName = some "abc" → "abc" ≠ "" → gitTag c7Env = (.ok "abc", [])) ∧
    (c7Env.githubSha = none → c7Env.isWorkTree = false →
      gitHead c7Env =
        (.error "Failed to find HEAD commit: git error", ["rev-parse --is-inside-work-tree"])) ∧
    (c7Env.githubSha = none → c7Env.isWorkTree = true →
      gitHead c7Env = (c7Env.headOut, ["rev-parse --is-inside-work-tree", "rev-parse HEAD"])) ∧
    (Build overrideInput startState).2 = .ok () ∧
    attachedLabel (Build overrideInput startState).1.trace
      "org.opencontainers.image.revision" = none ∧
    attachedLabel (Build overrideInput startState).1.trace
      "org.opencontainers.image.version" = none :=
  provenance_resolution_policy c7Env "abc" overrideInput startState "OVERRIDE-DF"
    "schema-json" "freeze-text" rfl rfl rfl rfl rfl rfl rfl rfl rfl rfl rfl rfl rfl

/-- **C10.** A failure to load the persisted weights manifest is never fatal
and is treated exactly like "no prior manifest exists": starting from an
unreadable cache file, the run's outcome and full interaction trace equal
those of the same run started with the cache file missing, the first engine
invocation is the weights-image build, and when it succeeds the freshly
generated manifest is persisted. -/
theorem build_corrupt_manifest_treated_as_missing (inp : BuildInput) (st0 : BuildSt)
    (w r ig : String) (m : Manifest)
    (hover : inp.dockerfileOverride = none)
    (hcheck : checkCompatibleDockerIgnore inp.matcher = .ok ())
    (hgen : inp.generatorInit = .ok ())
    (hbase : inp.isUsingCogBaseImage = false)
    (hsep : inp.separateWeights = true)
    (hsplit : inp.genSeparate = .ok (w, r, ig))
    (hman : inp.genManifest = .ok m)
    (hcache : st0.fs.manifestCache = .corrupt)
    (htrace : st0.trace = []) :
    (Build inp st0).2 =
      (Build inp { st0 with fs := { st0.fs with manifestCache := .missing } }).2 ∧
    (Build inp st0).1.trace =
      (Build inp { st0 with fs := { st0.fs with manifestCache := .missing } }).1.trace ∧
    (engineCalls (Build inp st0).1.trace).head? = some (w, inp.imageName ++ "-weights") ∧
    (inp.engine 0 = true → (Build inp st0).1.fs.manifestCache = .stored m) := by
  unfold Build separatePhase buildWeightsImage buildRunnerImage
    makeDockerignoreForWeightsImage stBackupDockerignore stWriteDockerignore
    stRestoreDockerignore dockerBuild backupDockerignore writeDockerignore
    restoreDockerignore
  simp only [hover, hcheck, hgen, hbase, hsep, hsplit, hman, hcache, htrace]
  cases hdi : st0.fs.dockerignore <;>
    cases hdb : st0.fs.dockerignoreBak <;>
      cases heng0 : inp.engine 0 <;>
        cases heng1 : inp.engine 1 <;>
          simp_all [loadManifest, engineCalls_nil, engineCalls_cons_engineBuild,
            engineCalls_cons_ignoreBackup, engineCalls_cons_ignoreWrite,
            engineCalls_cons_ignoreRestore, engineCalls_cons_genCreate,
            engineCalls_cons_genSeparate, engineCalls_cons_genUnified,
            engineCalls_cons_genManifest, finishBuild_engineCalls,
            finishBuild_fs_manifestCache]

/-- Witness for C10 at a concrete run with an unreadable cache file. -/
theorem build_corrupt_manifest_treated_as_missing_witness :
    (Build c2Input corruptState).2 =
      (Build c2Input
        { corruptState with fs := { corruptState.fs with manifestCache := .missing } }).2 ∧
    (Build c2Input corruptState).1.trace =
      (Build c2Input
        { corruptState with fs := { corruptState.fs with manifestCache := .missing } }).1.trace ∧
    (engineCalls (Build c2Input corruptState).1.trace).head? =
      some ("WEIGHTS-DF", c2Input.imageName ++ "-weights") ∧
    (c2Input.engine 0 = true →
      (Build c2Input corruptState).1.fs.manifestCache =
        .stored (Manifest.mk [("weights.bin", "hash1")])) :=
  build_corrupt_manifest_treated_as_missing c2Input corruptState "WEIGHTS-DF" "RUNNER-DF"
    "IGNORE-BODY" (Manifest.mk [("weights.bin", "hash1")]) rfl rfl rfl rfl rfl rfl rfl rfl rfl

/-- On the generator path without weight separation, with a cog base image in
use and a successful engine call, `Build` reduces to `finishBuild` with the
base image's name. -/
theorem Build_unified_ok_base (inp : BuildInput) (st0 : BuildSt) (contentsU nm : String)
    (hover : inp.dockerfileOverride = none)
    (hcheck : checkCompatibleDockerIgnore inp.matcher = .ok ())
    (hgen : inp.generatorInit = .ok ())
    (hb : inp.isUsingCogBaseImage = true)
    (hbase : inp.baseImage = .ok nm)
    (hsep : inp.separateWeights = false)
    (huni : inp.genUnified = .ok contentsU)
    (heng : inp.engine 0 = true)
    (htrace : st0.trace = []) :
    Build inp st0 = finishBuild inp nm
      { fs := { st0.fs with bundledSchema := none, bundledSchemaPy := none },
        trace := [Event.genCreate, Event.genUnified,
          Event.engineBuild contentsU inp.imageName] } := by
  unfold Build dockerBuild
  simp [hover, hcheck, hgen, hb, hbase, hsep, huni, htrace, heng, engineCalls_nil,
    engineCalls_cons_genCreate, engineCalls_cons_genUnified]

/-- Same reduction without a cog base image. -/
theorem Build_unified_ok_noBase (inp : BuildInput) (st0 : BuildSt) (contentsU : String)
    (hover : inp.dockerfileOverride = none)
    (hcheck : checkCompatibleDockerIgnore inp.matcher = .ok ())
    (hgen : inp.generatorInit = .ok ())
    (hb : inp.isUsingCogBaseImage = false)
    (hsep : inp.separateWeights = false)
    (huni : inp.genUnified = .ok contentsU)
    (heng : inp.engine 0 = true)
    (htrace : st0.trace = []) :
    Build inp st0 = finishBuild inp ""
      { fs := { st0.fs with bundledSchema := none, bundledSchemaPy := none },
        trace := [Event.genCreate, Event.genUnified,
          Event.engineBuild contentsU inp.imageName] } := by
  unfold Build dockerBuild
  simp [hover, hcheck, hgen, hb, hsep, huni, htrace, heng, engineCalls_nil,
    engineCalls_cons_genCreate, engineCalls_cons_genUnified]

/-- **C5.** With a managed (cog) base image in use: a base image with zero
layers makes `Build` fail with the descriptive no-layers error without any
layer-digest read, and a base image whose last layer's digest reads `d` makes
the final label set record, under the private namespace, the base image name,
the digest `d` and the zero-based index of the last layer.  Without a managed
base image, none of the three base-image labels are present. -/
theorem build_base_image_lineage (inp : BuildInput) (st0 : BuildSt)
    (contentsU nm sj pf d : String) (ls : List (Except String String))
    (hover : inp.dockerfileOverride = none)
    (hcheck : checkCompatibleDockerIgnore inp.matcher = .ok ())
    (hgen : inp.generatorInit = .ok ())
    (hbase : inp.baseImage = .ok nm)
    (hsep : inp.separateWeights = false)
    (huni : inp.genUnified = .ok contentsU)
    (heng : inp.engine 0 = true)
    (hsf : inp.schemaFileOverride = some (.ok sj))
    (hload : inp.schemaLoadOk = true)
    (hvalid : inp.schemaValidOk = true)
    (hpf : inp.pipFreeze = .ok pf)
    (hparse : inp.parseRefOk = true)
    (hfetch : inp.fetchOk = true)
    (hlay : inp.layers = .ok ls)
    (hann : inp.annotations = [])
    (hattach : inp.attachOk = true)
    (htrace : st0.trace = []) :
    (inp.isUsingCogBaseImage = true → nm ≠ "" →
      ((ls = [] →
        (Build inp st0).2 = .error ("Cog base image has no layers: " ++ nm) ∧
        ((Build inp st0).1.trace).filter isDiffIdRead = []) ∧
      (ls.getLast? = some (.ok d) →
        attachedLabel (Build inp st0).1.trace
          (LabelNamespace ++ "cog-base-image-name") = some nm ∧
        attachedLabel (Build inp st0).1.trace
          (LabelNamespace ++ "cog-base-image-last-layer-sha") = some d ∧
        attachedLabel (Build inp st0).1.trace
          (LabelNamespace ++ "cog-base-image-last-layer-idx") =
            some (toString (ls.length - 1))))) ∧
    (inp.isUsingCogBaseImage = false →
      (Build inp st0).2 = .ok () ∧
      attachedLabel (Build inp st0).1.trace
        (LabelNamespace ++ "cog-base-image-name") = none ∧
      attachedLabel (Build inp st0).1.trace
        (LabelNamespace ++ "cog-base-image-last-layer-sha") = none ∧
      attachedLabel (Build inp st0).1.trace
        (LabelNamespace ++ "cog-base-image-last-layer-idx") = none) := by
  constructor
  · intro hb hnm
    rw [Build_unified_ok_base inp st0 contentsU nm hover hcheck hgen hb hbase hsep huni
      heng htrace]
    constructor
    · intro hls
      unfold finishBuild resolveSchema labelPhase baseImageLabels
      simp [hsf, hload, hvalid, hpf, hnm, hparse, hfetch, hlay, hls, isDiffIdRead]
    · intro hlast
      unfold finishBuild resolveSchema labelPhase baseImageLabels
      simp only [hsf, hload, hvalid, hpf, hparse, hfetch, hlay, hlast, Bool.not_true,
        Bool.false_eq_true, if_false, if_neg hnm]
      unfold attachedLabel
      rw [attachedLabels_provenanceAndAttach]
      unfold finalLabels
      simp only [hann, List.foldl_nil, Option.some_bind]
      rw [lookupLabel_provenanceLabels _ _ _ (by decide) (by decide),
        lookupLabel_provenanceLabels _ _ _ (by decide) (by decide),
        lookupLabel_provenanceLabels _ _ _ (by decide) (by decide)]
      refine ⟨?_, ?_, ?_⟩
      · rw [lookupLabel_setLabel_other _ _ _ _ (by decide),
          lookupLabel_setLabel_other _ _ _ _ (by decide),
          lookupLabel_setLabel_same]
      · rw [lookupLabel_setLabel_other _ _ _ _ (by decide),
          lookupLabel_setLabel_same]
      · rw [lookupLabel_setLabel_same]
  · intro hb
    rw [Build_unified_ok_noBase inp st0 contentsU hover hcheck hgen hb hsep huni
      heng htrace]
    rw [finishBuild_ok_noBase inp _ sj pf hsf hload hvalid hpf]
    refine ⟨provenanceAndAttach_ok _ _ _ hattach, ?_, ?_, ?_⟩ <;>
      (unfold attachedLabel
       rw [attachedLabels_provenanceAndAttach]
       unfold finalLabels
       simp only [hann, List.foldl_nil, Option.some_bind]
       rw [lookupLabel_provenanceLabels _ _ _ (by decide) (by decide)]
       simp [initialLabels, setLabel, lookupLabel, LabelNamespace, CogVersionLabelKey,
         CogConfigLabelKey])

/-- Witness for C5 at a concrete one-layer base image. -/
theorem build_base_image_lineage_witness :
    (c5Input.isUsingCogBaseImage = true → "base-img" ≠ "" →
      (([Except.ok "sha-layer-0"] = ([] : List (Except String String)) →
        (Build c5Input startState).2 = .error ("Cog base image has no layers: " ++ "base-img") ∧
        ((Build c5Input startState).1.trace).filter isDiffIdRead = []) ∧
      (([Except.ok "sha-layer-0"] : List (Except String String)).getLast? =
          some (.ok "sha-layer-0") →
        attachedLabel (Build c5Input startState).1.trace
          (LabelNamespace ++ "cog-base-image-name") = some "base-img" ∧
        attachedLabel (Build c5Input startState).1.trace
          (LabelNamespace ++ "cog-base-image-last-layer-sha") = some "sha-layer-0" ∧
        attachedLabel (Build c5Input startState).1.trace
          (LabelNamespace ++ "cog-base-image-last-layer-idx") =
            some (toString (([Except.ok "sha-layer-0"] : List (Except String String)).length - 1))))) ∧
    (c5Input.isUsingCogBaseImage = false →
      (Build c5Input startState).2 = .ok () ∧
      attachedLabel (Build c5Input startState).1.trace
        (LabelNamespace ++ "cog-base-image-name") = none ∧
      attachedLabel (Build c5Input startState).1.trace
        (LabelNamespace ++ "cog-base-image-last-layer-sha") = none ∧
      attachedLabel (Build c5Input startState).1.trace
        (LabelNamespace ++ "cog-base-image-last-layer-idx") = none) :=
  build_base_image_lineage c5Input startState "UNIFIED-DF" "base-img" "schema-json"
    "freeze-text" "sha-layer-0" [Except.ok "sha-layer-0"] rfl rfl rfl rfl rfl rfl rfl rfl
    rfl rfl rfl rfl rfl rfl rfl rfl rfl

end Cog
